import Mathlib

/-
  Verification development for the Keck AO PCU motion-control software
  (pcu_sequencer: positions.py, motors.py, sequencer.py, collisionIOC.py).

  The Python sources are embedded shallowly:
  - a position or move object (PCUPos / PCUMove) becomes a record holding the
    four-axis value dictionary and the runtime class tag;
  - motor channel state becomes an explicit record, and the per-tick state
    machine bodies become functions in the Except monad, so that exceptions
    raised by the Python code (AttributeError, NameError, TypeError,
    ValueError) are explicit values;
  - quantities in millimeters are rationals.
-/

set_option maxHeartbeats 1000000

namespace PCU

/-- The four PCU axes: m1, m2 are the planar stages, m3 carries the pinhole
mask and m4 the fiber bundle. -/
inductive Axis
  | m1
  | m2
  | m3
  | m4
deriving DecidableEq, Repr

/-- Modelled from the spec: the list of valid motors comes from the motor
configuration file (motor_configurations.yaml), which is not among the
sources; spec sections 3 and 6.3 fix it as the ordered list of the four axes.
PCUPos.__init__ inserts exactly these keys, in this order, into _mdict, so
this list is also the iteration order of every position dictionary. -/
def validMotors : List Axis := [.m1, .m2, .m3, .m4]

/-- Move type tag of PCUMove (positions.py:222-227). -/
inductive MoveType
  | relative
  | absolute
deriving DecidableEq, Repr

/-- The _mdict of a PCUPos or PCUMove.  All four axis keys are always present
(PCUPos.__init__ fills every valid motor, unspecified ones with None), so the
dictionary is represented by one Option field per axis. -/
structure Vals where
  m1 : Option ℚ
  m2 : Option ℚ
  m3 : Option ℚ
  m4 : Option ℚ
deriving DecidableEq, Repr

def Vals.get (v : Vals) : Axis → Option ℚ
  | .m1 => v.m1
  | .m2 => v.m2
  | .m3 => v.m3
  | .m4 => v.m4

def Vals.set (v : Vals) : Axis → Option ℚ → Vals
  | .m1, x => { v with m1 := x }
  | .m2, x => { v with m2 := x }
  | .m3, x => { v with m3 := x }
  | .m4, x => { v with m4 := x }

def Vals.unset : Vals := ⟨none, none, none, none⟩

/-- A runtime PCUPos or PCUMove object: tag = none models an object whose
dynamic class is PCUPos, tag = some t an object of class PCUMove with
move_type t (positions.py distinguishes the two by type checks). -/
structure PyObj where
  vals : Vals
  tag : Option MoveType
deriving DecidableEq, Repr

/-- Constructs a PCUPos from per-axis optional values. -/
def mkPos (a b c d : Option ℚ) : PyObj := ⟨⟨a, b, c, d⟩, none⟩

/-- Constructs a PCUMove with the given move_type. -/
def mkMove (t : MoveType) (a b c d : Option ℚ) : PyObj := ⟨⟨a, b, c, d⟩, some t⟩

/-- Python exceptions that the embedded code can raise. -/
inductive PyErr
  | attributeError
  | nameError
  | typeError
  | valueError
deriving DecidableEq, Repr

/-- Geometric and limit constants.  Modelled from the spec: they are loaded
from the motor configuration file (not among the sources); spec section 8
gives the concrete deployment values used in the scenarios. -/
structure Geometry where
  fiber_center : ℚ × ℚ
  mask_center : ℚ × ℚ
  safe_radius_fiber : ℚ
  safe_radius_mask : ℚ
  motor_limits : Axis → ℚ × ℚ

/-- Modelled from the spec, section 8: fiber_center = (100, 50),
mask_center = (200, 50), safe radii 20 and 20, motor limits wide. -/
def specGeo : Geometry :=
  { fiber_center := (100, 50)
    mask_center := (200, 50)
    safe_radius_fiber := 20
    safe_radius_mask := 20
    motor_limits := fun _ => (-1000, 1000) }

/-- KMIRR_RADIUS (collisionIOC.py:37): true radius of the k-mirror rotator. -/
def KMIRR_RADIUS : ℚ := 50

/-- Squaring, the embedding of the Python expression x**2. -/
def sq (x : ℚ) : ℚ := x * x

/-- PCUPos.in_circle (positions.py:139-145): m1 and m2 are always keys of the
dict; if either value is None the result is False, otherwise the strict
circle test is applied. -/
def in_circle (p : PyObj) (cx cy r : ℚ) : Bool :=
  match p.vals.m1, p.vals.m2 with
  | some x, some y => decide (sq (x - cx) + sq (y - cy) < sq r)
  | _, _ => false

inductive Instrument
  | fiber
  | mask
deriving DecidableEq, Repr

/-- PCUPos.in_hole (positions.py:147-163): selects the center and the
configured safe radius for the instrument, overridden by check_rad when
given. -/
def in_hole (G : Geometry) (p : PyObj) (instr : Instrument) (check_rad : Option ℚ) : Bool :=
  match instr with
  | .fiber => in_circle p G.fiber_center.1 G.fiber_center.2 (check_rad.getD G.safe_radius_fiber)
  | .mask => in_circle p G.mask_center.1 G.mask_center.2 (check_rad.getD G.safe_radius_mask)

/-- PCUPos.fiber_extended (positions.py:165-167).  The m4 key is always
present; on a None value the Python comparison None > 0 would raise, and
every caller passes a fully-defined position, so none is mapped to false. -/
def fiber_extended (p : PyObj) : Bool :=
  match p.vals.m4 with
  | some v => decide (0 < v)
  | none => false

/-- PCUPos.mask_extended (positions.py:169-171). -/
def mask_extended (p : PyObj) : Bool :=
  match p.vals.m3 with
  | some v => decide (0 < v)
  | none => false

/-- PCUPos.is_between (positions.py:123-128); callers check definedness
first, so none is mapped to false. -/
def is_between (p : PyObj) (a : Axis) (lo hi : ℚ) : Bool :=
  match p.vals.get a with
  | some v => decide (lo ≤ v) && decide (v ≤ hi)
  | none => false

/-- PCUPos.in_limits (positions.py:130-137); every valid motor has an entry
in the modelled limits table. -/
def in_limits (G : Geometry) (p : PyObj) : Bool :=
  validMotors.all fun a => is_between p a (G.motor_limits a).1 (G.motor_limits a).2

/-- Whether every axis value of the dict is defined (the first loop of
PCUPos.is_valid, positions.py:175-176). -/
def fully_defined (p : PyObj) : Bool :=
  validMotors.all fun a => (p.vals.get a).isSome

/-- PCUPos.is_valid (positions.py:173-189): every axis defined, the mask
(m3 > 0) only inside the mask hole, the fiber (m4 > 0) only inside the fiber
hole, and all motor limits respected.  The getD 0 defaults are guarded by the
fully_defined conjunct, mirroring that the Python code reads self.m3 and
self.m4 only after the None check has passed. -/
def is_valid (G : Geometry) (p : PyObj) : Bool :=
  fully_defined p &&
  !(decide (0 < p.vals.m3.getD 0) && !(in_hole G p .mask none)) &&
  !(decide (0 < p.vals.m4.getD 0) && !(in_hole G p .fiber none)) &&
  in_limits G p

/-- PCUPos.move_in_hole (positions.py:191-205): both positions valid and both
inside the same safe aperture (mask or fiber). -/
def move_in_hole (G : Geometry) (p q : PyObj) : Bool :=
  is_valid G p && is_valid G q &&
  ((in_hole G p .mask none && in_hole G q .mask none) ||
   (in_hole G p .fiber none && in_hole G q .fiber none))

/-- PCUMove.__bool__ (positions.py:229-233): the loop runs over the keys of
_mdict and returns True on the first key that is different from None.  The
keys are the axis names, never None, so the loop returns True whenever the
dictionary has a key at all; every move dictionary holds all four axes. -/
def PCUMove_bool (_mv : PyObj) : Bool :=
  validMotors.any fun _m_name => true

/-- Modelled from the spec, section 3 and the PCUMove.__bool__ docstring: a
move is empty (falsy) exactly when all of its components are unset.  This is
the documented intent that PCUMove_bool fails to implement. -/
def move_is_set (mv : PyObj) : Bool :=
  validMotors.any fun a => (mv.vals.get a).isSome

/-- The negated value dictionary built by PCUPos.__neg__: unset components
stay unset, set components are negated. -/
def negVals (v : Vals) : Vals :=
  ⟨v.m1.map Neg.neg, v.m2.map Neg.neg, v.m3.map Neg.neg, v.m4.map Neg.neg⟩

/-- PCUPos.__neg__ (positions.py:73-80): refuses an absolute move
(ValueError), otherwise returns a relative PCUMove with negated components. -/
def pyNeg (p : PyObj) : Option PyObj :=
  if p.tag = some .absolute then none
  else some ⟨negVals p.vals, some .relative⟩

/-- One iteration of the loop of PCUPos.__add__ (positions.py:65-69): a set
component of the move replaces (absolute) or increments (relative) the
accumulator entry; incrementing a None entry raises in Python (mapped to
none). -/
def addStep (t : MoveType) (mvv : Vals) (acc : Vals) (a : Axis) : Option Vals :=
  match mvv.get a with
  | none => some acc
  | some v =>
    match t with
    | .absolute => some (acc.set a (some v))
    | .relative =>
      match acc.get a with
      | some w => some (acc.set a (some (w + v)))
      | none => none

/-- The loop of PCUPos.__add__ over the move dictionary in key order. -/
def add_loop (t : MoveType) (mvv : Vals) : Vals → List Axis → Option Vals
  | acc, [] => some acc
  | acc, a :: rest =>
    match addStep t mvv acc a with
    | none => none
    | some acc2 => add_loop t mvv acc2 rest

/-- PCUPos.__add__ (positions.py:60-71): requires the right operand to be a
PCUMove (else ValueError, mapped to none), then applies the move to a copy of
the dictionary and constructs a plain PCUPos from the result. -/
def pyAdd (p other : PyObj) : Option PyObj :=
  match other.tag with
  | none => none
  | some t => (add_loop t other.vals p.vals validMotors).map fun vs => ⟨vs, none⟩

/-- PCUPos.__sub__ (positions.py:82-85): refuses a PCUMove operand
(ValueError), otherwise returns self + (-other). -/
def pySub (p other : PyObj) : Option PyObj :=
  if other.tag.isSome then none
  else (pyNeg other).bind fun nm => pyAdd p nm

/-- Channel state of one motor (motors.py PCUMotor.channels): posvalRb is the
position readback, posval the commanded target (none before any command), the
enable and enableRb pair is collapsed to one boolean carrying whether the
motor is enabled, stopped latches an SPMG Stop, go the go trigger. -/
structure MotorSt where
  pos : ℚ
  cmd : Option ℚ
  enabled : Bool
  stopped : Bool
  go : Bool
deriving DecidableEq, Repr

/-- The motor dictionary of a sequencer: one PCUMotor per valid motor. -/
structure Motors where
  m1 : MotorSt
  m2 : MotorSt
  m3 : MotorSt
  m4 : MotorSt
deriving DecidableEq, Repr

def Motors.get (ms : Motors) : Axis → MotorSt
  | .m1 => ms.m1
  | .m2 => ms.m2
  | .m3 => ms.m3
  | .m4 => ms.m4

def Motors.set (ms : Motors) : Axis → MotorSt → Motors
  | .m1, m => { ms with m1 := m }
  | .m2, m => { ms with m2 := m }
  | .m3, m => { ms with m3 := m }
  | .m4, m => { ms with m4 := m }

def Motors.map (f : MotorSt → MotorSt) (ms : Motors) : Motors :=
  ⟨f ms.m1, f ms.m2, f ms.m3, f ms.m4⟩

namespace PCUMotor

/-- PCUMotor.get_pos (motors.py:61-63). -/
def get_pos (m : MotorSt) : ℚ := m.pos

/-- Modelled from the spec: PCUMotor.get_commanded is called by the guardian
(collisionIOC.py:115) but is absent from motors.py; spec section 4.1
(read_commanded) says it returns the last commanded value. -/
def get_commanded (m : MotorSt) : Option ℚ := m.cmd

/-- PCUMotor.set_pos (motors.py:65-68): writes the target to the posval
channel and latches go.  trigger_move passes the raw dictionary values, so
the written value may be None. -/
def set_pos (m : MotorSt) (v : Option ℚ) : MotorSt := { m with cmd := v, go := true }

/-- PCUMotor.stop (motors.py:70-73): SPMG Stop, deliberately without a
connection check. -/
def stop (m : MotorSt) : MotorSt := { m with stopped := true }

/-- PCUMotor.isEnabled (motors.py:43-47): reads the (inverted) software
enable readback; collapsed here to the enabled boolean. -/
def isEnabled (m : MotorSt) : Bool := m.enabled

/-- PCUMotor.disable (motors.py:55-59).  The body runs check_connection and
then self.torque.set(0); the torque channel is commented out of
PCUMotor.channels (motors.py:17), so no torque attribute is ever created and
the attribute lookup raises AttributeError before the software-enable write
on line 59 is reached.  The motor state is therefore never changed. -/
def disable (_m : MotorSt) : Except PyErr MotorSt := .error .attributeError

/-- Modelled from the spec: PCUMotor.reset_pos is called by the guardian
(collisionIOC.py:131) but is absent from motors.py; spec section 4.1
(reset_position) says it re-latches the commanded value to the current
position. -/
def reset_pos (m : MotorSt) : MotorSt := { m with cmd := some m.pos }

end PCUMotor

/-- current_pos of either sequencer (sequencer.py:308-314,
collisionIOC.py:103-109): a PCUPos holding every motor position readback. -/
def current_pos (ms : Motors) : PyObj :=
  mkPos (some ms.m1.pos) (some ms.m2.pos) (some ms.m3.pos) (some ms.m4.pos)

namespace Coll

/-- collisionSequencer.commanded_pos (collisionIOC.py:111-117), via the
spec-modelled PCUMotor.get_commanded. -/
def commanded_pos (ms : Motors) : PyObj :=
  ⟨⟨ms.m1.cmd, ms.m2.cmd, ms.m3.cmd, ms.m4.cmd⟩, none⟩

/-- collisionSequencer.stop_motors (collisionIOC.py:119-127). -/
def stop_motors (ms : Motors) : Motors := Motors.map PCUMotor.stop ms

/-- collisionSequencer.disable_motors (collisionIOC.py:134-136): calls
PCUMotor.disable on every motor in order; the first call raises. -/
def disable_motors (ms : Motors) : Except PyErr Motors :=
  validMotors.foldlM (fun acc a => (PCUMotor.disable (acc.get a)).map (acc.set a)) ms

/-- collisionSequencer.reset_motors (collisionIOC.py:129-132): reset_pos then
go on every motor. -/
def reset_motors (ms : Motors) : Motors :=
  Motors.map (fun m => { PCUMotor.reset_pos m with go := true }) ms

/-- collisionSequencer.go_motors (collisionIOC.py:138-140). -/
def go_motors (ms : Motors) : Motors := Motors.map (fun m => { m with go := true }) ms

/-- collisionSequencer.stop_and_reset (collisionIOC.py:142-150): stop, wait,
disable, wait, reset, wait, go (the waits carry no state). -/
def stop_and_reset (ms : Motors) : Except PyErr Motors := do
  let ms := stop_motors ms
  let ms ← disable_motors ms
  let ms := reset_motors ms
  pure (go_motors ms)

/-- collisionSequencer.check_all_pos (collisionIOC.py:221-235): returns false
after a stop-and-reset when the current or the commanded position is invalid,
true otherwise. -/
def check_all_pos (G : Geometry) (ms : Motors) : Except PyErr (Bool × Motors) :=
  if !(is_valid G (current_pos ms)) then do
    let ms ← stop_and_reset ms
    pure (false, ms)
  else if !(is_valid G (commanded_pos ms)) then do
    let ms ← stop_and_reset ms
    pure (false, ms)
  else
    pure (true, ms)

/-- Guardian states (collisionIOC.py:39-46). -/
inductive CState
  | INIT
  | MONITORING
  | STOPPED
  | RESTRICTED
  | DISABLED
  | FAULT
  | TERMINATE
deriving DecidableEq, Repr

/-- collisionSequencer.process_MONITORING (collisionIOC.py:342-358) on a tick
with no abort flag and an empty request channel: checkmeta and
process_request are then no-ops and the tick reduces to check_all_pos plus
the transition to STOPPED on failure. -/
def process_MONITORING (G : Geometry) (ms : Motors) : Except PyErr (CState × Motors) := do
  let r ← check_all_pos G ms
  if r.1 then pure (.MONITORING, r.2) else pure (.STOPPED, r.2)

/-- Comparison operators stored in allowed_motors (operator.le and
operator.ge). -/
inductive CmpOp
  | le
  | ge
deriving DecidableEq, Repr

/-- Application of a stored operator: op(x, y). -/
def CmpOp.holds : CmpOp → ℚ → ℚ → Bool
  | .le, x, y => decide (x ≤ y)
  | .ge, x, y => decide (y ≤ x)

/-- The allowed_motors dictionary: at most one operator per axis. -/
structure Allowed where
  m1 : Option CmpOp
  m2 : Option CmpOp
  m3 : Option CmpOp
  m4 : Option CmpOp
deriving DecidableEq, Repr

def Allowed.get (al : Allowed) : Axis → Option CmpOp
  | .m1 => al.m1
  | .m2 => al.m2
  | .m3 => al.m3
  | .m4 => al.m4

def Allowed.set (al : Allowed) : Axis → Option CmpOp → Allowed
  | .m1, x => { al with m1 := x }
  | .m2, x => { al with m2 := x }
  | .m3, x => { al with m3 := x }
  | .m4, x => { al with m4 := x }

def Allowed.empty : Allowed := ⟨none, none, none, none⟩

/-- Insertion order of allowed_motors in load_restricted_moves: m4 by the
fiber branch, m3 by the mask branch, then m1 and m2 by the center-move loop. -/
def allowedOrder : List Axis := [.m4, .m3, .m1, .m2]

/-- The instrument-center position built in load_restricted_moves
(collisionIOC.py:189, 202): PCUPos(m1=center, m2=center, m3=0, m4=0). -/
def instr_center_pos (c : ℚ × ℚ) : PyObj :=
  mkPos (some c.1) (some c.2) (some 0) (some 0)

/-- Intermediate state of load_restricted_moves: the allowed map under
construction, the move_to_center flag and the bound instr_center. -/
structure RS where
  allowed : Allowed
  move_to_center : Bool
  center : Option PyObj
deriving DecidableEq, Repr

/-- collisionSequencer.load_restricted_moves (collisionIOC.py:164-219),
without the same_message logging bookkeeping.  Returns the rebuilt
allowed_motors map and whether the both-payloads-extended branch called
to_STOPPED (manual reset required). -/
def load_restricted_moves (G : Geometry) (ms : Motors) : Allowed × Bool :=
  let cur := current_pos ms
  let fiber_in_hole := in_hole G cur .fiber (some KMIRR_RADIUS)
  let fiber_allowed := in_hole G cur .fiber none
  let mask_in_hole := in_hole G cur .mask (some KMIRR_RADIUS)
  let mask_allowed := in_hole G cur .mask none
  let st0 : RS := ⟨Allowed.empty, false, none⟩
  let st1 : RS :=
    if !fiber_in_hole && fiber_extended cur then
      ⟨st0.allowed.set .m4 (some .le), st0.move_to_center, st0.center⟩
    else if fiber_in_hole && !fiber_allowed then
      ⟨st0.allowed, true, some (instr_center_pos G.fiber_center)⟩
    else st0
  let st2 : RS :=
    if !mask_in_hole && mask_extended cur then
      ⟨st1.allowed.set .m3 (some .le), st1.move_to_center, st1.center⟩
    else if mask_in_hole && !mask_allowed then
      ⟨st1.allowed, true, some (instr_center_pos G.mask_center)⟩
    else st1
  if fiber_extended cur && mask_extended cur && st2.move_to_center then
    (st2.allowed, true)
  else if st2.move_to_center then
    match st2.center with
    | some center =>
      match pySub center cur with
      | some pos_diff =>
        let al := st2.allowed
        let al :=
          match pos_diff.vals.m1 with
          | some d =>
            if 0 < d then al.set .m1 (some .ge)
            else if d < 0 then al.set .m1 (some .le)
            else al
          | none => al
        let al :=
          match pos_diff.vals.m2 with
          | some d =>
            if 0 < d then al.set .m2 (some .ge)
            else if d < 0 then al.set .m2 (some .le)
            else al
          | none => al
        (al, false)
      | none => (st2.allowed, false)
    | none => (st2.allowed, false)
  else (st2.allowed, false)

/-- The loop of collisionSequencer.check_future_pos (collisionIOC.py:237-249)
over the allowed_motors items: on the first axis whose commanded value
violates its operator, stop-and-reset and go to STOPPED; a None commanded
value would raise TypeError inside the operator call. -/
def check_future_pos_loop (ms : Motors) (al : Allowed) :
    List Axis → Except PyErr (CState × Motors)
  | [] => pure (.RESTRICTED, ms)
  | a :: rest =>
    match al.get a with
    | none => check_future_pos_loop ms al rest
    | some op =>
      match (ms.get a).cmd with
      | none => .error .typeError
      | some f =>
        if !(op.holds f (ms.get a).pos) then do
          let ms ← stop_and_reset ms
          pure (.STOPPED, ms)
        else check_future_pos_loop ms al rest

/-- collisionSequencer.process_RESTRICTED (collisionIOC.py:403-437) on a tick
with no abort and an empty request channel: recompute the allowed map,
disable every motor that is not in it, then check the commanded position.
The same_message bookkeeping carries no state relevant here. -/
def process_RESTRICTED (G : Geometry) (ms : Motors) : Except PyErr (CState × Motors) := do
  let (al, manual) := load_restricted_moves G ms
  let ms ← validMotors.foldlM
    (fun acc a =>
      if (al.get a).isNone then (PCUMotor.disable (acc.get a)).map (acc.set a)
      else pure acc) ms
  let r ← check_future_pos_loop ms al allowedOrder
  pure (if manual then .STOPPED else r.1, r.2)

end Coll

namespace Seq

/-- Sequencer states (sequencer.py:63-68). -/
inductive SState
  | INIT
  | INPOS
  | MOVING
  | FAULT
  | TERMINATE
deriving DecidableEq, Repr

/-- self.state.name for the sequencer states. -/
def stateName : SState → String
  | .INIT => "INIT"
  | .INPOS => "INPOS"
  | .MOVING => "MOVING"
  | .FAULT => "FAULT"
  | .TERMINATE => "TERMINATE"

/-- RESET_VAL (sequencer.py:42): the sentinel value -999.9 of the mini-move
channels, written in lowest terms as the rational -9999/10 (see
RESET_VAL_value below). -/
def RESET_VAL : ℚ := ⟨-9999, 10, by decide, by decide⟩

def MOVE_TIME : ℚ := 45

def HOME_TIME : ℚ := 360

/-- The four per-axis double channels of one kind (Pos or Offset). -/
structure Chans where
  m1 : ℚ
  m2 : ℚ
  m3 : ℚ
  m4 : ℚ
deriving DecidableEq, Repr

/-- All Pos and Offset channels hold RESET_VAL initially
(sequencer.py:142-143). -/
def Chans.initial : Chans := ⟨RESET_VAL, RESET_VAL, RESET_VAL, RESET_VAL⟩

/-- State of the PCUSequencer relevant to the embedded tick fragments:
the machine state, the move queue, the single-slot current move, the posRb
configuration readback and destination, the homing flag, the countdown timer
armed by trigger_move, the stst metastate string, the two mini-move channel
blocks, and the log of critical messages. -/
structure SeqSt where
  state : SState
  motor_moves : List PyObj
  current_move : Option PyObj
  configuration : String
  destination : String
  homing : Bool
  move_timer : Option ℚ
  metastate : String
  posChan : Chans
  offsetChan : Chans
  criticals : List String
deriving DecidableEq, Repr

/-- self.critical(msg): log at critical severity. -/
def addCrit (s : SeqSt) (msg : String) : SeqSt :=
  { s with criticals := s.criticals ++ [msg] }

/-- PCUSequencer.home_Z (sequencer.py:74): the absolute retraction move
with m3 = 0 and m4 = 0. -/
def home_Z : PyObj := mkMove .absolute none none (some 0) (some 0)

/-- PCUSequencer.checkmeta (sequencer.py:620-628): publish the state name as
the metastate, clear the configuration outside INPOS, and set it to the
string user_def when INPOS and unlatched. -/
def checkmeta (s : SeqSt) : SeqSt :=
  let s := { s with metastate := stateName s.state }
  let s := if s.state ≠ .INPOS then { s with configuration := "" } else s
  if s.state = .INPOS ∧ s.configuration = "" then { s with configuration := "user_def" }
  else s

/-- The destructive-read getter installed by add_property
(sequencer.py:195-205): a sentinel value reads as None and leaves the channel
alone; any other value is returned and the channel is reset to the
sentinel. -/
def destRead (v : ℚ) : Option ℚ × ℚ :=
  if v = RESET_VAL then (none, v) else (some v, RESET_VAL)

/-- Destructive read of one channel block, axis by axis. -/
def readChans (c : Chans) : Vals × Chans :=
  let r1 := destRead c.m1
  let r2 := destRead c.m2
  let r3 := destRead c.m3
  let r4 := destRead c.m4
  (⟨r1.1, r2.1, r3.1, r4.1⟩, ⟨r1.2, r2.2, r3.2, r4.2⟩)

inductive ChanType
  | Pos
  | Offset
deriving DecidableEq, Repr

/-- PCUSequencer.get_channels (sequencer.py:215-228): loads every channel of
the given kind into a PCUMove (absolute for Pos, relative for Offset)
through the destructive-read properties. -/
def get_channels (s : SeqSt) : ChanType → PyObj × SeqSt
  | .Pos =>
    let r := readChans s.posChan
    (⟨r.1, some .absolute⟩, { s with posChan := r.2 })
  | .Offset =>
    let r := readChans s.offsetChan
    (⟨r.1, some .relative⟩, { s with offsetChan := r.2 })

/-- PCUSequencer.get_moves (sequencer.py:230-237): the absolute move is
returned whenever it is truthy; PCUMove_bool makes every move truthy, so the
Offset channels are never consulted. -/
def get_moves (s : SeqSt) : PyObj × SeqSt :=
  let r := get_channels s .Pos
  if PCUMove_bool r.1 then r
  else get_channels r.2 .Offset

/-- PCUMove.xy (positions.py:277-282): the move restricted to m1 and m2. -/
def xyMove (mv : PyObj) : PyObj := ⟨⟨mv.vals.m1, mv.vals.m2, none, none⟩, mv.tag⟩

/-- PCUMove.z (positions.py:284-289): the move restricted to m3 and m4. -/
def zMove (mv : PyObj) : PyObj := ⟨⟨none, none, mv.vals.m3, mv.vals.m4⟩, mv.tag⟩

/-- PCUSequencer.process_move_request (sequencer.py:580-610).  The early
return on a falsy move never fires (PCUMove_bool); from INPOS a valid
destination leads to the queueing of the xy and z parts and MOVING, but the
retraction branch on line 603 writes motor_moves without self and raises
NameError; an invalid destination is logged and nothing is queued. -/
def process_move_request (G : Geometry) (s : SeqSt) (ms : Motors) : Except PyErr SeqSt :=
  let r := get_moves s
  let move := r.1
  let s := r.2
  if !(PCUMove_bool move) then pure s
  else if s.state = .MOVING then
    pure (addCrit s "PCU is moving. Send stop signal before moving to new position.")
  else if !(s.state = .INPOS) then
    pure (addCrit s "Moves not valid from state.")
  else
    let cur := current_pos ms
    match pyAdd cur move with
    | none => .error .typeError
    | some dest =>
      if is_valid G dest then
        if !(move_in_hole G cur dest) then .error .nameError
        else pure { s with motor_moves := s.motor_moves ++ [xyMove move, zMove move],
                           state := .MOVING }
      else pure (addCrit s "Invalid destination position.")

/-- The single-axis absolute move PCUMove(move_type=absolute,
pos_dict=(m_name: m_dest)) built by load_config (sequencer.py:338). -/
def single_abs_move (a : Axis) (v : Option ℚ) : PyObj :=
  ⟨Vals.unset.set a v, some .absolute⟩

/-- The per-axis tail of the queue built by load_config: one absolute move
per axis, in dictionary order. -/
def axis_moves (dest : PyObj) : List PyObj :=
  validMotors.map fun a => single_abs_move a (dest.vals.get a)

/-- PCUSequencer.load_config (sequencer.py:316-347), the queue it builds:
the home_Z retraction first when the current position and the destination
are not in-hole-compatible, then one absolute move per axis. -/
def load_config (G : Geometry) (cur dest : PyObj) : List PyObj :=
  (if !(move_in_hole G cur dest) then [home_Z] else []) ++ axis_moves dest

/-- PCUSequencer.process_pos_request (sequencer.py:554-578) for an
already-lowercased request string: from INPOS a known configuration is loaded
(load_config also clears the configuration and sets the destination) and the
machine moves to MOVING; every other case only logs. -/
def process_pos_request (G : Geometry) (s : SeqSt) (ms : Motors) (request : String)
    (configs : List (String × PyObj)) : SeqSt :=
  if request = "" then s
  else if s.state = .INPOS then
    match configs.lookup request with
    | some dest =>
      { s with motor_moves := load_config G (current_pos ms) dest,
               configuration := "", destination := request, state := .MOVING }
    | none => addCrit s "Invalid configuration."
  else if s.state = .MOVING then
    addCrit s "Send stop signal before moving to new position."
  else if s.state = .FAULT then
    addCrit s "Reinitialize the PCU sequencer before moving."
  else addCrit s "Moves not available from state."

/-- PCUSequencer.stop_motors (sequencer.py:452-467): clear the current move,
the queue, the configuration and the destination, and stop every motor. -/
def stop_motors (s : SeqSt) (ms : Motors) : SeqSt × Motors :=
  ({ s with criticals := s.criticals ++ ["Stopping all motors."],
            current_move := none, motor_moves := [],
            configuration := "", destination := "" },
   Motors.map PCUMotor.stop ms)

/-- Accumulator of the motor loop of trigger_move: the sequencer state, the
motors, and the set_pos commands issued so far. -/
structure TrigAcc where
  s : SeqSt
  ms : Motors
  cmds : List (Axis × Option ℚ)
deriving DecidableEq, Repr

/-- One iteration of the motor loop of trigger_move (sequencer.py:377-389):
a disabled motor logs, stops all motors and transitions to FAULT, but the
loop is not aborted; the set_pos command is issued regardless, with the raw
dictionary value. -/
def trig_step (mv : PyObj) (acc : TrigAcc) (a : Axis) : TrigAcc :=
  let acc :=
    if !(PCUMotor.isEnabled (acc.ms.get a)) then
      let r := stop_motors (addCrit acc.s "Motor is not enabled.") acc.ms
      { acc with s := { r.1 with state := .FAULT }, ms := r.2 }
    else acc
  { s := acc.s,
    ms := acc.ms.set a (PCUMotor.set_pos (acc.ms.get a) (mv.vals.get a)),
    cmds := acc.cmds ++ [(a, mv.vals.get a)] }

/-- The motor loop of trigger_move over the move dictionary in key order. -/
def trig_loop (mv : PyObj) : TrigAcc → List Axis → TrigAcc
  | acc, [] => acc
  | acc, a :: rest => trig_loop mv (trig_step mv acc a) rest

/-- PCUSequencer.trigger_move (sequencer.py:349-397), the branch taken when
self.homing is false (the homing branch on lines 352-370 is entered only
during a homing sequence): check the destination (an invalid one is only
logged), run the motor loop, then record the move in current_move and start
the MOVE_TIME timer. -/
def trigger_move_regular (G : Geometry) (s : SeqSt) (ms : Motors) (mv : PyObj) :
    Except PyErr TrigAcc :=
  match pyAdd (current_pos ms) mv with
  | none => .error .valueError
  | some dest =>
    let s := if !(is_valid G dest) then addCrit s "Invalid move." else s
    let acc := trig_loop mv ⟨s, ms, []⟩ validMotors
    pure { acc with s := { acc.s with current_move := some mv, move_timer := some MOVE_TIME } }

end Seq

end PCU

open PCU

/-! Helper lemmas shared by several claims. -/

/-- Sanity check: the constructor form of the sentinel is the rational
-999.9. -/
theorem RESET_VAL_value : Seq.RESET_VAL = -9999 / 10 := by
  have h := Rat.num_div_den Seq.RESET_VAL
  have h1 : Seq.RESET_VAL.num = -9999 := rfl
  have h2 : Seq.RESET_VAL.den = 10 := rfl
  rw [h1, h2] at h
  push_cast at h
  linarith [h]

theorem PCUMove_bool_true (mv : PyObj) : PCUMove_bool mv = true := rfl

theorem pyAdd_total (x1 x2 x3 x4 : ℚ) (tg : Option MoveType) (mv : PyObj) (t : MoveType)
    (ht : mv.tag = some t) :
    ∃ r : PyObj, pyAdd ⟨⟨some x1, some x2, some x3, some x4⟩, tg⟩ mv = some r ∧ r.tag = none := by
  obtain ⟨⟨w1, w2, w3, w4⟩, mtag⟩ := mv
  simp only at ht
  subst ht
  cases t <;> rcases w1 with _ | v1 <;> rcases w2 with _ | v2 <;> rcases w3 with _ | v3 <;>
      rcases w4 with _ | v4 <;> exact ⟨_, rfl, rfl⟩

theorem fully_defined_exists (p : PyObj) (h : fully_defined p = true) :
    ∃ a b c d : ℚ, p.vals = ⟨some a, some b, some c, some d⟩ := by
  obtain ⟨⟨v1, v2, v3, v4⟩, tg⟩ := p
  rcases v1 with _ | a <;> rcases v2 with _ | b <;> rcases v3 with _ | c <;>
      rcases v4 with _ | d <;>
    simp [fully_defined, validMotors, Vals.get] at h <;>
    exact ⟨_, _, _, _, rfl⟩

/-- C10 input: mask payload extended, (m1, m2) exactly on the mask safe
circle. -/
def c10_pos_mask : PyObj := mkPos (some 220) (some 50) (some 5) (some 0)

/-- C10 input: fiber payload extended, (m1, m2) exactly on the fiber safe
circle. -/
def c10_pos_fiber : PyObj := mkPos (some 120) (some 50) (some 0) (some 10)

/-- C10: the safe-aperture membership test is strict.  For every fully
defined position with a payload extended whose planar coordinates lie exactly
on the corresponding safe-radius circle, in_circle is false and therefore
is_valid is false. -/
theorem C10_on_circle_invalid (G : Geometry) (p : PyObj) (x y : ℚ)
    (hx : p.vals.m1 = some x) (hy : p.vals.m2 = some y)
    (hfd : fully_defined p = true) :
    (∀ z : ℚ, p.vals.m3 = some z → 0 < z →
      PCU.sq (x - G.mask_center.1) + PCU.sq (y - G.mask_center.2) =
        PCU.sq G.safe_radius_mask →
      in_circle p G.mask_center.1 G.mask_center.2 G.safe_radius_mask = false ∧
      is_valid G p = false) ∧
    (∀ z : ℚ, p.vals.m4 = some z → 0 < z →
      PCU.sq (x - G.fiber_center.1) + PCU.sq (y - G.fiber_center.2) =
        PCU.sq G.safe_radius_fiber →
      in_circle p G.fiber_center.1 G.fiber_center.2 G.safe_radius_fiber = false ∧
      is_valid G p = false) := by
  constructor
  · intro z hz hzpos hcirc
    have hic : in_circle p G.mask_center.1 G.mask_center.2 G.safe_radius_mask = false := by
      simp [in_circle, hx, hy, hcirc]
    refine ⟨hic, ?_⟩
    simp [is_valid, in_hole, hz, hzpos, hic]
  · intro z hz hzpos hcirc
    have hic : in_circle p G.fiber_center.1 G.fiber_center.2 G.safe_radius_fiber = false := by
      simp [in_circle, hx, hy, hcirc]
    refine ⟨hic, ?_⟩
    simp [is_valid, in_hole, hz, hzpos, hic]

/-- C10 witness: both parts of the theorem applied at concrete on-circle
positions under the deployment geometry. -/
theorem C10_on_circle_invalid_witness :
    (in_circle c10_pos_mask specGeo.mask_center.1 specGeo.mask_center.2
        specGeo.safe_radius_mask = false ∧ is_valid specGeo c10_pos_mask = false) ∧
    (in_circle c10_pos_fiber specGeo.fiber_center.1 specGeo.fiber_center.2
        specGeo.safe_radius_fiber = false ∧ is_valid specGeo c10_pos_fiber = false) :=
  ⟨(C10_on_circle_invalid specGeo c10_pos_mask 220 50 rfl rfl (by decide)).1 5 rfl
      (by decide) (by norm_num [PCU.sq, specGeo]),
   (C10_on_circle_invalid specGeo c10_pos_fiber 120 50 rfl rfl (by decide)).2 10 rfl
      (by decide) (by norm_num [PCU.sq, specGeo])⟩

/-- C8 counterexample inputs: two fully-defined positions. -/
def c8x_p : PyObj := mkPos (some 1) (some 2) (some 3) (some 4)

def c8x_q : PyObj := mkPos (some 0) (some 0) (some 0) (some 0)

/-- C8 counterexample: subtraction of two fully-defined positions does not
produce a PCUMove at all.  PCUPos.__sub__ returns self + (-other) and
PCUPos.__add__ constructs a plain PCUPos, so the result carries no move-type
tag, refuting that p - q is a relative move. -/
theorem C8_sub_not_a_move :
    ∃ r : PyObj, pySub c8x_p c8x_q = some r ∧ ¬ r.tag = some MoveType.relative :=
  ⟨_, rfl, by decide⟩

/-- C8 amended: for fully-defined positions p and q, p - q is a plain
position (not a move) whose each component is the difference of the
components, and adding any move to a fully-defined position yields a plain
position. -/
theorem C8_sub_components (p q : PyObj)
    (hp : p.tag = none) (hq : q.tag = none)
    (hfp : fully_defined p = true) (hfq : fully_defined q = true) :
    (∃ r : PyObj, pySub p q = some r ∧ r.tag = none ∧
      ∀ a : Axis, ∃ x y : ℚ, p.vals.get a = some x ∧ q.vals.get a = some y ∧
        r.vals.get a = some (x - y)) ∧
    (∀ (mv : PyObj) (t : MoveType), mv.tag = some t →
      ∃ r : PyObj, pyAdd p mv = some r ∧ r.tag = none) := by
  obtain ⟨pv, ptag⟩ := p
  obtain ⟨qv, qtag⟩ := q
  simp only at hp hq
  subst hp
  subst hq
  obtain ⟨x1, x2, x3, x4, hpv⟩ := fully_defined_exists ⟨pv, none⟩ hfp
  obtain ⟨y1, y2, y3, y4, hqv⟩ := fully_defined_exists ⟨qv, none⟩ hfq
  simp only at hpv hqv
  subst hpv
  subst hqv
  constructor
  · refine ⟨⟨⟨some (x1 + -y1), some (x2 + -y2), some (x3 + -y3), some (x4 + -y4)⟩, none⟩,
      rfl, rfl, ?_⟩
    intro a
    cases a
    · refine ⟨x1, y1, rfl, rfl, ?_⟩
      simp [Vals.get, sub_eq_add_neg]
    · refine ⟨x2, y2, rfl, rfl, ?_⟩
      simp [Vals.get, sub_eq_add_neg]
    · refine ⟨x3, y3, rfl, rfl, ?_⟩
      simp [Vals.get, sub_eq_add_neg]
    · refine ⟨x4, y4, rfl, rfl, ?_⟩
      simp [Vals.get, sub_eq_add_neg]
  · intro mv t htag
    exact pyAdd_total x1 x2 x3 x4 none mv t htag

/-- C8 witness: the amended subtraction statement applied at a concrete pair
of fully-defined positions. -/
theorem C8_sub_components_witness :
    ∃ r : PyObj, pySub (mkPos (some 5) (some 6) (some 7) (some 8))
        (mkPos (some 1) (some 1) (some 1) (some 1)) = some r ∧ r.tag = none ∧
      ∀ a : Axis, ∃ x y : ℚ,
        (mkPos (some 5) (some 6) (some 7) (some 8)).vals.get a = some x ∧
        (mkPos (some 1) (some 1) (some 1) (some 1)).vals.get a = some y ∧
        r.vals.get a = some (x - y) :=
  (C8_sub_components (mkPos (some 5) (some 6) (some 7) (some 8))
    (mkPos (some 1) (some 1) (some 1) (some 1)) rfl rfl (by decide) (by decide)).1

/-- C2: every named-configuration queue built by load_config begins with the
home_Z retraction exactly when the current position and the destination are
not in-hole-compatible; otherwise no retraction is prepended and the queue is
the per-axis moves alone. -/
theorem C2_retraction_iff_not_in_hole (G : Geometry) (cur dest : PyObj) :
    (move_in_hole G cur dest = false →
      Seq.load_config G cur dest = Seq.home_Z :: Seq.axis_moves dest) ∧
    (move_in_hole G cur dest = true →
      Seq.load_config G cur dest = Seq.axis_moves dest ∧
      (Seq.load_config G cur dest).head? ≠ some Seq.home_Z) := by
  constructor
  · intro h
    simp [Seq.load_config, h]
  · intro h
    refine ⟨by simp [Seq.load_config, h], ?_⟩
    simp [Seq.load_config, h, Seq.axis_moves, validMotors, Seq.single_abs_move, Seq.home_Z,
      Vals.unset, Vals.set, mkMove]

/-- C2 inputs: a pair that is not in-hole-compatible and a pair that is. -/
def c2_cur_out : PyObj := mkPos (some 0) (some 0) (some 0) (some 0)

def c2_dest_out : PyObj := mkPos (some 100) (some 50) (some 0) (some 5)

def c2_cur_in : PyObj := mkPos (some 100) (some 50) (some 0) (some 5)

def c2_dest_in : PyObj := mkPos (some 100) (some 50) (some 0) (some 10)

/-- C2 witness: both branches of the theorem at concrete positions under the
deployment geometry. -/
theorem C2_retraction_iff_not_in_hole_witness :
    Seq.load_config specGeo c2_cur_out c2_dest_out =
      Seq.home_Z :: Seq.axis_moves c2_dest_out ∧
    Seq.load_config specGeo c2_cur_in c2_dest_in = Seq.axis_moves c2_dest_in :=
  ⟨(C2_retraction_iff_not_in_hole specGeo c2_cur_out c2_dest_out).1
      (by norm_num [move_in_hole, is_valid, fully_defined, in_hole, in_circle, in_limits,
        is_between, validMotors, Vals.get, c2_cur_out, c2_dest_out, mkPos, specGeo, PCU.sq]),
   ((C2_retraction_iff_not_in_hole specGeo c2_cur_in c2_dest_in).2
      (by norm_num [move_in_hole, is_valid, fully_defined, in_hole, in_circle, in_limits,
        is_between, validMotors, Vals.get, c2_cur_in, c2_dest_in, mkPos, specGeo, PCU.sq])).1⟩

/-- C7 counterexample input: the sequencer in INPOS with the configuration
telescope latched. -/
def c7x_s : Seq.SeqSt :=
  { state := .INPOS, motor_moves := [], current_move := none,
    configuration := "telescope", destination := "", homing := false,
    move_timer := none, metastate := "", posChan := .initial,
    offsetChan := .initial, criticals := [] }

/-- C7 counterexample: in INPOS with configuration telescope latched,
checkmeta publishes the metastate INPOS, not the upper-cased configuration
TELESCOPE (nor USER_DEF); the configuration is published on the separate
posRb channel. -/
theorem C7_metastate_not_configuration :
    (Seq.checkmeta c7x_s).metastate = "INPOS" ∧
    (Seq.checkmeta c7x_s).metastate ≠ "TELESCOPE" ∧
    (Seq.checkmeta c7x_s).metastate ≠ "USER_DEF" ∧
    (Seq.checkmeta c7x_s).configuration = "telescope" := by
  refine ⟨rfl, by decide, by decide, rfl⟩

/-- C7 amended: checkmeta always publishes the state name as the metastate;
the configuration readback is cleared outside INPOS and set to user_def when
INPOS and unlatched, and kept otherwise. -/
theorem C7_metastate_is_state_name (s : Seq.SeqSt) :
    (Seq.checkmeta s).metastate = Seq.stateName s.state ∧
    (s.state ≠ Seq.SState.INPOS → (Seq.checkmeta s).configuration = "") ∧
    (s.state = Seq.SState.INPOS →
      (Seq.checkmeta s).configuration =
        (if s.configuration = "" then "user_def" else s.configuration)) := by
  by_cases h1 : s.state = Seq.SState.INPOS <;> by_cases h2 : s.configuration = "" <;>
    simp [Seq.checkmeta, h1, h2]

/-- C7 input for the witness: a MOVING-state sequencer with a stale
configuration string. -/
def c7w_s : Seq.SeqSt :=
  { state := .MOVING, motor_moves := [], current_move := none,
    configuration := "telescope", destination := "", homing := false,
    move_timer := none, metastate := "", posChan := .initial,
    offsetChan := .initial, criticals := [] }

/-- C7 witness: the amended statement applied in MOVING. -/
theorem C7_metastate_is_state_name_witness :
    (Seq.checkmeta c7w_s).metastate = Seq.stateName c7w_s.state ∧
    (Seq.checkmeta c7w_s).configuration = "" :=
  ⟨(C7_metastate_is_state_name c7w_s).1,
   (C7_metastate_is_state_name c7w_s).2.1 (by decide)⟩

/-- stop_and_reset always raises: its disable_motors step calls
PCUMotor.disable on the first motor, which raises AttributeError (the torque
channel is commented out of PCUMotor.channels while still referenced by
disable), so the reset and go steps are never reached. -/
theorem stop_and_reset_raises (ms : Motors) :
    Coll.stop_and_reset ms = .error .attributeError := rfl

theorem check_all_pos_cur_invalid (G : Geometry) (ms : Motors)
    (h : is_valid G (current_pos ms) = false) :
    Coll.check_all_pos G ms = .error .attributeError := by
  unfold Coll.check_all_pos
  rw [h]
  rfl

theorem check_all_pos_cmd_invalid (G : Geometry) (ms : Motors)
    (h1 : is_valid G (current_pos ms) = true)
    (h2 : is_valid G (Coll.commanded_pos ms) = false) :
    Coll.check_all_pos G ms = .error .attributeError := by
  unfold Coll.check_all_pos
  rw [h1, h2]
  rfl

/-- C1 failing input: current position m1=200, m2=50, m3=0, m4=10, fiber
extended far outside the fiber safe radius; commanded equal to current. -/
def c1_ms : Motors :=
  ⟨⟨200, some 200, true, false, false⟩, ⟨50, some 50, true, false, false⟩,
   ⟨0, some 0, true, false, false⟩, ⟨10, some 10, true, false, false⟩⟩

/-- C1 second failing input: current position valid (at the fiber center,
fiber extended), commanded position invalid (commanded m1 = 200). -/
def c1b_ms : Motors :=
  ⟨⟨100, some 200, true, false, false⟩, ⟨50, some 50, true, false, false⟩,
   ⟨0, some 0, true, false, false⟩, ⟨5, some 5, true, false, false⟩⟩

/-- C1: in MONITORING with an invalid current (or commanded) position, the
tick does not stop-and-reset, disable and transition to STOPPED: the
stop-and-reset sequence raises AttributeError inside PCUMotor.disable, so the
commanded value is never reset, the motors are never disabled, and the
transition to STOPPED is never executed. -/
theorem C1_monitoring_raises_attribute_error :
    is_valid specGeo (current_pos c1_ms) = false ∧
    Coll.process_MONITORING specGeo c1_ms = .error .attributeError ∧
    is_valid specGeo (current_pos c1b_ms) = true ∧
    is_valid specGeo (Coll.commanded_pos c1b_ms) = false ∧
    Coll.process_MONITORING specGeo c1b_ms = .error .attributeError := by
  have h1 : is_valid specGeo (current_pos c1_ms) = false := by
    norm_num [is_valid, fully_defined, in_limits, is_between, in_hole, in_circle,
      validMotors, Vals.get, current_pos, mkPos, PCU.sq, specGeo, c1_ms]
  have h2 : is_valid specGeo (current_pos c1b_ms) = true := by
    norm_num [is_valid, fully_defined, in_limits, is_between, in_hole, in_circle,
      validMotors, Vals.get, current_pos, mkPos, PCU.sq, specGeo, c1b_ms]
  have h3 : is_valid specGeo (Coll.commanded_pos c1b_ms) = false := by
    norm_num [is_valid, fully_defined, in_limits, is_between, in_hole, in_circle,
      validMotors, Vals.get, Coll.commanded_pos, PCU.sq, specGeo, c1b_ms]
  refine ⟨h1, ?_, h2, h3, ?_⟩
  · unfold Coll.process_MONITORING
    rw [check_all_pos_cur_invalid specGeo c1_ms h1]
    rfl
  · unfold Coll.process_MONITORING
    rw [check_all_pos_cmd_invalid specGeo c1b_ms h2 h3]
    rfl

/-- C3 failing input: the S5 situation, fiber extended outside the physical
aperture (so RESTRICTED allows only m4 with the le operator), with a
commanded m4 of 20 that violates the operator against the current 10. -/
def c3_ms : Motors :=
  ⟨⟨200, some 200, true, false, false⟩, ⟨50, some 50, true, false, false⟩,
   ⟨0, some 0, true, false, false⟩, ⟨10, some 20, true, false, false⟩⟩

/-- C3: in RESTRICTED with an axis violating its allowed direction, the tick
raises AttributeError (disabling the not-allowed motors calls
PCUMotor.disable) before check_future_pos ever runs, so the stop-and-reset
and the transition to STOPPED never happen. -/
theorem C3_restricted_raises_attribute_error :
    (Coll.load_restricted_moves specGeo c3_ms).1 =
      ⟨none, none, none, some Coll.CmpOp.le⟩ ∧
    Coll.CmpOp.holds Coll.CmpOp.le 20 10 = false ∧
    (c3_ms.get Axis.m4).cmd = some 20 ∧
    (c3_ms.get Axis.m4).pos = 10 ∧
    Coll.process_RESTRICTED specGeo c3_ms = .error .attributeError := by
  have hal : Coll.load_restricted_moves specGeo c3_ms =
      (⟨none, none, none, some Coll.CmpOp.le⟩, false) := by
    norm_num [Coll.load_restricted_moves, in_hole, in_circle, fiber_extended,
      mask_extended, current_pos, mkPos, validMotors, Vals.get, c3_ms, specGeo,
      PCU.sq, KMIRR_RADIUS, Coll.Allowed.empty, Coll.Allowed.set,
      Coll.instr_center_pos]
  refine ⟨by rw [hal], by decide, rfl, rfl, ?_⟩
  unfold Coll.process_RESTRICTED
  rw [hal]
  rfl

/-- C4 counterexample input: fiber extended outside the physical aperture,
and the mask extended outside its physical aperture as well. -/
def c4x_ms : Motors :=
  ⟨⟨0, some 0, true, false, false⟩, ⟨0, some 0, true, false, false⟩,
   ⟨5, some 5, true, false, false⟩, ⟨10, some 10, true, false, false⟩⟩

/-- C4 counterexample: a current position with the fiber extended (m4 > 0)
and (m1, m2) outside the physical k-mirror aperture around fiber_center whose
allowed-directions map nevertheless permits m3 as well (the mask branch also
fires), refuting that the map permits only axis m4. -/
theorem C4_allowed_map_not_only_m4 :
    fiber_extended (current_pos c4x_ms) = true ∧
    in_hole specGeo (current_pos c4x_ms) .fiber (some KMIRR_RADIUS) = false ∧
    (Coll.load_restricted_moves specGeo c4x_ms).1.m4 = some Coll.CmpOp.le ∧
    (Coll.load_restricted_moves specGeo c4x_ms).1.m3 = some Coll.CmpOp.le := by
  have hal : Coll.load_restricted_moves specGeo c4x_ms =
      (⟨none, none, some Coll.CmpOp.le, some Coll.CmpOp.le⟩, false) := by
    norm_num [Coll.load_restricted_moves, in_hole, in_circle, fiber_extended,
      mask_extended, current_pos, mkPos, validMotors, Vals.get, c4x_ms, specGeo,
      PCU.sq, KMIRR_RADIUS, Coll.Allowed.empty, Coll.Allowed.set,
      Coll.instr_center_pos]
  refine ⟨by decide, ?_, by rw [hal], by rw [hal]⟩
  norm_num [in_hole, in_circle, current_pos, mkPos, c4x_ms, specGeo, PCU.sq,
    KMIRR_RADIUS]

/-- C4 amended: the allowed-directions map is exactly the single entry m4 le
when, in addition to the fiber being extended outside the physical aperture,
the mask branch contributes nothing: the mask is not extended outside its
physical aperture, and the planar position is not inside the mask physical
aperture while outside the mask safe radius. -/
theorem C4_allowed_map_only_m4 (G : Geometry) (ms : Motors)
    (h1 : fiber_extended (current_pos ms) = true)
    (h2 : in_hole G (current_pos ms) .fiber (some KMIRR_RADIUS) = false)
    (h3 : (!(in_hole G (current_pos ms) .mask (some KMIRR_RADIUS)) &&
           mask_extended (current_pos ms)) = false)
    (h4 : (in_hole G (current_pos ms) .mask (some KMIRR_RADIUS) &&
           !(in_hole G (current_pos ms) .mask none)) = false) :
    Coll.load_restricted_moves G ms = (⟨none, none, none, some Coll.CmpOp.le⟩, false) := by
  unfold Coll.load_restricted_moves
  simp [h1, h2, h3, h4, Coll.Allowed.empty, Coll.Allowed.set]

/-- C4 witness input: the S5 scenario position m1=200, m2=50, m3=0, m4=10. -/
def c4w_ms : Motors :=
  ⟨⟨200, some 200, true, false, false⟩, ⟨50, some 50, true, false, false⟩,
   ⟨0, some 0, true, false, false⟩, ⟨10, some 10, true, false, false⟩⟩

/-- C5 counterexample input: an invalid named configuration (m3 extended at
a planar position far outside the mask safe radius). -/
def c5x_dest : PyObj := mkPos (some 10) (some 10) (some 5) (some 0)

def c5x_configs : List (String × PyObj) := [("badcfg", c5x_dest)]

def c5x_s : Seq.SeqSt :=
  { state := .INPOS, motor_moves := [], current_move := none,
    configuration := "", destination := "", homing := false,
    move_timer := none, metastate := "", posChan := .initial,
    offsetChan := .initial, criticals := [] }

def c5x_ms : Motors :=
  ⟨⟨0, some 0, true, false, false⟩, ⟨0, some 0, true, false, false⟩,
   ⟨0, some 0, true, false, false⟩, ⟨0, some 0, true, false, false⟩⟩

/-- C5 counterexample: a named-configuration request whose destination is
invalid is not rejected: process_pos_request loads the queue anyway,
transitions to MOVING and surfaces no error (no critical is logged). -/
theorem C5_invalid_named_goal_queued :
    is_valid specGeo c5x_dest = false ∧
    c5x_configs.lookup "badcfg" = some c5x_dest ∧
    (Seq.process_pos_request specGeo c5x_s c5x_ms "badcfg" c5x_configs).state =
      Seq.SState.MOVING ∧
    (Seq.process_pos_request specGeo c5x_s c5x_ms "badcfg" c5x_configs).motor_moves =
      Seq.home_Z :: Seq.axis_moves c5x_dest ∧
    (Seq.process_pos_request specGeo c5x_s c5x_ms "badcfg" c5x_configs).criticals = [] := by
  have hinv : is_valid specGeo c5x_dest = false := by
    norm_num [is_valid, fully_defined, in_limits, is_between, in_hole, in_circle,
      validMotors, Vals.get, c5x_dest, mkPos, PCU.sq, specGeo]
  have hmih : move_in_hole specGeo (current_pos c5x_ms) c5x_dest = false := by
    simp [move_in_hole, hinv]
  refine ⟨hinv, rfl, rfl, ?_, rfl⟩
  have hq : (Seq.process_pos_request specGeo c5x_s c5x_ms "badcfg" c5x_configs).motor_moves =
      Seq.load_config specGeo (current_pos c5x_ms) c5x_dest := rfl
  rw [hq]
  simp [Seq.load_config, hmih]

/-- C5 amended (offset half): whenever the move read from the channels on an
INPOS tick has an invalid destination, process_move_request queues nothing,
keeps the state, and logs exactly one critical diagnostic. -/
theorem C5_offset_invalid_rejected (G : Geometry) (s : Seq.SeqSt) (ms : Motors)
    (dest : PyObj)
    (hst : s.state = Seq.SState.INPOS)
    (hadd : pyAdd (current_pos ms) (Seq.get_moves s).1 = some dest)
    (hinv : is_valid G dest = false) :
    Seq.process_move_request G s ms =
      .ok (Seq.addCrit (Seq.get_moves s).2 "Invalid destination position.") ∧
    ((Seq.get_moves s).2).state = s.state ∧
    ((Seq.get_moves s).2).motor_moves = s.motor_moves ∧
    ((Seq.get_moves s).2).criticals = s.criticals := by
  have hs2 : (Seq.get_moves s).2 = { s with posChan := (Seq.readChans s.posChan).2 } := rfl
  have hmv : (Seq.get_moves s).1 =
      (⟨(Seq.readChans s.posChan).1, some .absolute⟩ : PyObj) := rfl
  rw [hmv] at hadd
  refine ⟨?_, by rw [hs2], by rw [hs2], by rw [hs2]⟩
  unfold Seq.process_move_request
  rw [show Seq.get_moves s = ((⟨(Seq.readChans s.posChan).1, some .absolute⟩ : PyObj),
    { s with posChan := (Seq.readChans s.posChan).2 }) from rfl]
  simp [PCUMove_bool, validMotors, hst, hadd, hinv, hs2]
  rfl

/-- C5 witness input: in INPOS at the fiber center with the fiber extended,
an absolute m1Pos request of 200 whose destination is outside the fiber safe
radius. -/
def c5w_s : Seq.SeqSt :=
  { state := .INPOS, motor_moves := [], current_move := none,
    configuration := "", destination := "", homing := false,
    move_timer := none, metastate := "", posChan := ⟨200, Seq.RESET_VAL,
      Seq.RESET_VAL, Seq.RESET_VAL⟩, offsetChan := .initial, criticals := [] }

def c5w_ms : Motors :=
  ⟨⟨100, some 100, true, false, false⟩, ⟨50, some 50, true, false, false⟩,
   ⟨0, some 0, true, false, false⟩, ⟨5, some 5, true, false, false⟩⟩

/-- C5 witness: the amended statement applied at an S4-style invalid offset
destination. -/
theorem C5_offset_invalid_rejected_witness :
    Seq.process_move_request specGeo c5w_s c5w_ms =
      .ok (Seq.addCrit (Seq.get_moves c5w_s).2 "Invalid destination position.") ∧
    ((Seq.get_moves c5w_s).2).state = c5w_s.state ∧
    ((Seq.get_moves c5w_s).2).motor_moves = c5w_s.motor_moves ∧
    ((Seq.get_moves c5w_s).2).criticals = c5w_s.criticals :=
  C5_offset_invalid_rejected specGeo c5w_s c5w_ms
    (mkPos (some 200) (some 50) (some 0) (some 5)) rfl rfl
    (by norm_num [is_valid, fully_defined, in_limits, is_between, in_hole, in_circle,
      validMotors, Vals.get, mkPos, PCU.sq, specGeo])

/-- C6 failing input: INPOS tick, a single non-sentinel write of 100 on the
m1Offset channel, current position at the fiber center with the fiber
extended. -/
def c6_s : Seq.SeqSt :=
  { state := .INPOS, motor_moves := [], current_move := none,
    configuration := "", destination := "", homing := false,
    move_timer := none, metastate := "", posChan := .initial,
    offsetChan := ⟨100, Seq.RESET_VAL, Seq.RESET_VAL, Seq.RESET_VAL⟩,
    criticals := [] }

def c6_ms : Motors :=
  ⟨⟨100, some 100, true, false, false⟩, ⟨50, some 50, true, false, false⟩,
   ⟨0, some 0, true, false, false⟩, ⟨5, some 5, true, false, false⟩⟩

/-- C6 second failing input: same channels but a current position in no safe
hole, so the tick takes the retraction branch and raises NameError. -/
def c6b_s : Seq.SeqSt :=
  { state := .INPOS, motor_moves := [], current_move := none,
    configuration := "", destination := "", homing := false,
    move_timer := none, metastate := "", posChan := .initial,
    offsetChan := ⟨100, Seq.RESET_VAL, Seq.RESET_VAL, Seq.RESET_VAL⟩,
    criticals := [] }

def c6b_ms : Motors :=
  ⟨⟨0, some 0, true, false, false⟩, ⟨0, some 0, true, false, false⟩,
   ⟨0, some 0, true, false, false⟩, ⟨0, some 0, true, false, false⟩⟩

/-- C6: the offset write is never consumed and the tick queues two empty
moves instead of exactly one motion.  The all-unset move is truthy, so
get_moves always returns the Pos-channel move without ever reading the
Offset channels: the INPOS tick queues the empty xy and z moves and enters
MOVING while the m1Offset channel still holds 100; at a position outside
both holes the same tick raises NameError instead. -/
theorem C6_offset_write_never_consumed :
    PCUMove_bool (mkMove .absolute none none none none) = true ∧
    move_is_set (mkMove .absolute none none none none) = false ∧
    (∃ s1 : Seq.SeqSt, Seq.process_move_request specGeo c6_s c6_ms = .ok s1 ∧
      s1.state = Seq.SState.MOVING ∧
      s1.motor_moves = [Seq.xyMove (mkMove .absolute none none none none),
        Seq.zMove (mkMove .absolute none none none none)] ∧
      (s1.motor_moves.all fun q => !(move_is_set q)) = true ∧
      s1.offsetChan.m1 = 100) ∧
    Seq.process_move_request specGeo c6b_s c6b_ms = .error .nameError := by
  refine ⟨rfl, rfl,
    ⟨{ c6_s with motor_moves := [Seq.xyMove (mkMove .absolute none none none none),
        Seq.zMove (mkMove .absolute none none none none)], state := .MOVING },
      ?_, rfl, rfl, by decide, rfl⟩, ?_⟩
  · norm_num [Seq.process_move_request, Seq.get_moves, Seq.get_channels, Seq.readChans,
      Seq.destRead, Seq.Chans.initial, c6_s, c6_ms, PCUMove_bool, validMotors, pyAdd,
      add_loop, addStep, Vals.get, Vals.set, current_pos, mkPos, is_valid, fully_defined,
      in_limits, is_between, in_hole, in_circle, move_in_hole, PCU.sq, specGeo,
      Seq.xyMove, Seq.zMove, mkMove]
    rfl
  · norm_num [Seq.process_move_request, Seq.get_moves, Seq.get_channels, Seq.readChans,
      Seq.destRead, Seq.Chans.initial, c6b_s, c6b_ms, PCUMove_bool, validMotors, pyAdd,
      add_loop, addStep, Vals.get, Vals.set, current_pos, mkPos, is_valid, fully_defined,
      in_limits, is_between, in_hole, in_circle, move_in_hole, PCU.sq, specGeo, mkMove]
    intro h
    exact absurd h (by decide)

theorem trig_step_cmds (mv : PyObj) (acc : Seq.TrigAcc) (a : Axis) :
    (Seq.trig_step mv acc a).cmds = acc.cmds ++ [(a, mv.vals.get a)] := by
  simp only [Seq.trig_step]
  split <;> rfl

theorem trig_step_enabled (mv : PyObj) (acc : Seq.TrigAcc) (a b : Axis) :
    ((Seq.trig_step mv acc a).ms.get b).enabled = (acc.ms.get b).enabled := by
  simp only [Seq.trig_step]
  split <;> cases a <;> cases b <;>
    simp [Motors.get, Motors.set, Motors.map, PCUMotor.set_pos, PCUMotor.stop,
      Seq.stop_motors]

theorem trig_step_fault (mv : PyObj) (acc : Seq.TrigAcc) (a : Axis)
    (h : acc.s.state = Seq.SState.FAULT) :
    (Seq.trig_step mv acc a).s.state = Seq.SState.FAULT := by
  simp only [Seq.trig_step]
  split
  · rfl
  · exact h

theorem trig_step_disabled (mv : PyObj) (acc : Seq.TrigAcc) (a : Axis)
    (h : (acc.ms.get a).enabled = false) :
    (Seq.trig_step mv acc a).s.state = Seq.SState.FAULT := by
  simp [Seq.trig_step, PCUMotor.isEnabled, h]

theorem trig_loop_cmds (mv : PyObj) : ∀ (l : List Axis) (acc : Seq.TrigAcc),
    (Seq.trig_loop mv acc l).cmds = acc.cmds ++ l.map fun b => (b, mv.vals.get b)
  | [], acc => by simp [Seq.trig_loop]
  | a :: rest, acc => by
    simp only [Seq.trig_loop]
    rw [trig_loop_cmds mv rest (Seq.trig_step mv acc a), trig_step_cmds]
    simp

theorem trig_loop_cmds_from_start (mv : PyObj) (s0 : Seq.SeqSt) (m0 : Motors) :
    (Seq.trig_loop mv ⟨s0, m0, []⟩ validMotors).cmds =
      validMotors.map fun b => (b, mv.vals.get b) := by
  rw [trig_loop_cmds]
  simp

theorem trig_loop_fault (mv : PyObj) : ∀ (l : List Axis) (acc : Seq.TrigAcc),
    acc.s.state = Seq.SState.FAULT →
    (Seq.trig_loop mv acc l).s.state = Seq.SState.FAULT
  | [], acc => fun h => h
  | a :: rest, acc => fun h => by
    simp only [Seq.trig_loop]
    exact trig_loop_fault mv rest _ (trig_step_fault mv acc a h)

theorem trig_loop_hits (mv : PyObj) : ∀ (l : List Axis) (acc : Seq.TrigAcc) (a : Axis),
    a ∈ l → (acc.ms.get a).enabled = false →
    (Seq.trig_loop mv acc l).s.state = Seq.SState.FAULT
  | [], _, a => fun h => absurd h (List.not_mem_nil a)
  | hd :: tl, acc, a => fun hmem hdis => by
    rcases List.mem_cons.mp hmem with heq | htl
    · subst heq
      simp only [Seq.trig_loop]
      exact trig_loop_fault mv tl _ (trig_step_disabled mv acc a hdis)
    · simp only [Seq.trig_loop]
      exact trig_loop_hits mv tl (Seq.trig_step mv acc hd) a htl
        (by rw [trig_step_enabled]; exact hdis)

/-- C9: when a regular (non-homing) move is triggered with some involved
motor disabled, trigger_move transitions to FAULT but does not abort: the
set_pos command is still issued for every axis (the disabled one and the
rest), current_move is set and the MOVE_TIME timer is started. -/
theorem C9_trigger_not_atomic (G : Geometry) (s : Seq.SeqSt) (ms : Motors) (mv : PyObj)
    (t : MoveType) (a : Axis)
    (htag : mv.tag = some t)
    (hinvolved : (mv.vals.get a).isSome = true)
    (hdis : (ms.get a).enabled = false) :
    ∃ acc : Seq.TrigAcc,
      Seq.trigger_move_regular G s ms mv = .ok acc ∧
      acc.s.state = Seq.SState.FAULT ∧
      acc.cmds = validMotors.map (fun b => (b, mv.vals.get b)) ∧
      acc.s.current_move = some mv ∧
      acc.s.move_timer = some Seq.MOVE_TIME := by
  obtain ⟨dest, hd, -⟩ :=
    pyAdd_total ms.m1.pos ms.m2.pos ms.m3.pos ms.m4.pos none mv t htag
  have hd' : pyAdd (current_pos ms) mv = some dest := hd
  unfold Seq.trigger_move_regular
  rw [hd']
  refine ⟨_, rfl, ?_, ?_, rfl, rfl⟩
  · exact trig_loop_hits mv validMotors _ a (by cases a <;> simp [validMotors]) hdis
  · exact trig_loop_cmds_from_start mv _ ms

/-- C9 witness inputs: motor m1 disabled, absolute single-axis move on m1. -/
def c9w_s : Seq.SeqSt :=
  { state := .MOVING, motor_moves := [], current_move := none,
    configuration := "", destination := "", homing := false,
    move_timer := none, metastate := "", posChan := .initial,
    offsetChan := .initial, criticals := [] }

def c9w_ms : Motors :=
  ⟨⟨0, some 0, false, false, false⟩, ⟨0, some 0, true, false, false⟩,
   ⟨0, some 0, true, false, false⟩, ⟨0, some 0, true, false, false⟩⟩

def c9w_mv : PyObj := mkMove .absolute (some 10) none none none

/-- C9 witness: the theorem applied with m1 disabled. -/
theorem C9_trigger_not_atomic_witness :
    ∃ acc : Seq.TrigAcc,
      Seq.trigger_move_regular specGeo c9w_s c9w_ms c9w_mv = .ok acc ∧
      acc.s.state = Seq.SState.FAULT ∧
      acc.cmds = validMotors.map (fun b => (b, c9w_mv.vals.get b)) ∧
      acc.s.current_move = some c9w_mv ∧
      acc.s.move_timer = some Seq.MOVE_TIME :=
  C9_trigger_not_atomic specGeo c9w_s c9w_ms c9w_mv .absolute .m1 rfl (by decide)
    (by decide)

/-- C4 witness: the amended statement applied at the S5 position. -/
theorem C4_allowed_map_only_m4_witness :
    Coll.load_restricted_moves specGeo c4w_ms =
      (⟨none, none, none, some Coll.CmpOp.le⟩, false) :=
  C4_allowed_map_only_m4 specGeo c4w_ms (by decide)
    (by norm_num [in_hole, in_circle, current_pos, mkPos, c4w_ms, specGeo, PCU.sq,
      KMIRR_RADIUS])
    (by norm_num [in_hole, in_circle, mask_extended, current_pos, mkPos, c4w_ms,
      specGeo, PCU.sq, KMIRR_RADIUS])
    (by norm_num [in_hole, in_circle, current_pos, mkPos, c4w_ms, specGeo, PCU.sq,
      KMIRR_RADIUS])

